import Mathlib

/-!
# Claudipedia knowledge-graph access layer: a verification development

This file embeds the data model and entity operations of the Claudipedia
knowledge-representation platform (Claim / Edge / Gap / Source, their
validation invariants, the flat-record serialization used for the Neo4j
property model, the entity operations of the typed access layer, the
backend startup-script environment resolution, and the web article-search
route) and proves the spec's testable properties about them.

Numeric confidence / strength / importance scores (Python floats in the
source) are modelled as rationals `ℚ`.
-/

/-! ## Domain model

The domain model lives in `src/core/models.py` of the repository, which is
described by its progress documentation (fields, enumerated types, and the
validation rules) but whose body is not among the available sources, so the
definitions below are modelled from the spec and that in-repo description.
-/

/-- Modelled from the spec: the enumerated claim types of `src/core/models.py`
(AXIOM, LAW, DERIVED, EMPIRICAL, GAP). -/
inductive ClaimType where
  | AXIOM
  | LAW
  | DERIVED
  | EMPIRICAL
  | GAP
deriving DecidableEq, Repr

/-- Modelled from the spec: the enumerated reasoning types of
`src/core/models.py` (MATHEMATICAL_DERIVATION, EXPERIMENTAL_SUPPORT,
LOGICAL_INFERENCE, the ones its description names). -/
inductive ReasoningType where
  | MATHEMATICAL_DERIVATION
  | EXPERIMENTAL_SUPPORT
  | LOGICAL_INFERENCE
deriving DecidableEq, Repr

/-- Modelled from the spec: a Source — evidence supporting a claim, with
fields type, reference, credibility, last_checked. -/
structure Source where
  type : String
  reference : String
  credibility : ℚ
  last_checked : String
deriving DecidableEq, Repr

/-- Modelled from the spec: a Claim — a statement of fact, with fields
id, statement, type, domain, confidence, sources, math_expression. -/
structure Claim where
  id : String
  statement : String
  type : ClaimType
  domain : String
  confidence : ℚ
  sources : List Source
  math_expression : Option String
deriving DecidableEq, Repr

/-- Modelled from the spec: an Edge — a directed reasoning relationship,
with fields id, from_claim_id, to_claim_id, reasoning_type, explanation,
strength. -/
structure Edge where
  id : String
  from_claim_id : String
  to_claim_id : String
  reasoning_type : ReasoningType
  explanation : String
  strength : ℚ
deriving DecidableEq, Repr

/-- Modelled from the spec: a Gap — an identified absence of knowledge, with
fields id, question, blocked_claim_ids, current_research, importance.
The importance score is the orderable prioritization score; the spec leaves
its range an implementer's choice, so it is modelled unbounded. -/
structure Gap where
  id : String
  question : String
  blocked_claim_ids : List String
  current_research : String
  importance : ℚ
deriving DecidableEq, Repr

/-- Modelled from the spec: a `ValidationError` names the offending field and
the allowed range. -/
structure ValidationError where
  field : String
  lo : ℚ
  hi : ℚ
deriving DecidableEq, Repr

/-- Modelled from the spec: validated construction of a Claim
(`src/core/models.py`): confidence must lie in [0,1], and an AXIOM-typed
claim must have confidence exactly 1. Validation is a pure function of the
field values — it involves no store. -/
def mkClaim (id statement : String) (type : ClaimType) (domain : String)
    (confidence : ℚ) (sources : List Source) (math_expression : Option String) :
    Except ValidationError Claim :=
  if confidence < 0 ∨ 1 < confidence then
    .error ⟨"confidence", 0, 1⟩
  else if type = ClaimType.AXIOM ∧ confidence ≠ 1 then
    .error ⟨"confidence", 1, 1⟩
  else
    .ok ⟨id, statement, type, domain, confidence, sources, math_expression⟩

/-- Modelled from the spec: validated construction of an Edge
(`src/core/models.py`): strength must lie in [0,1]. -/
def mkEdge (id from_claim_id to_claim_id : String) (reasoning_type : ReasoningType)
    (explanation : String) (strength : ℚ) : Except ValidationError Edge :=
  if strength < 0 ∨ 1 < strength then
    .error ⟨"strength", 0, 1⟩
  else
    .ok ⟨id, from_claim_id, to_claim_id, reasoning_type, explanation, strength⟩

/-- Modelled from the spec: construction of a Gap (`src/core/models.py`).
The importance score is unbounded (implementer's choice per the spec), so no
range validation applies to it. -/
def mkGap (id question : String) (blocked_claim_ids : List String)
    (current_research : String) (importance : ℚ) : Except ValidationError Gap :=
  .ok ⟨id, question, blocked_claim_ids, current_research, importance⟩

/-! ## Flat-record serialization

Modelled from the spec: entities convert to and from a flat serialization
suitable for the store's property model — no nested objects inside a single
node's properties; primitive values and lists of primitives only. The
nested Source list of a Claim is flattened into four parallel primitive
lists, the standard flattening for a property graph. -/

/-- A primitive property value of the store's property model: a string, a
number, a list of strings, a list of numbers, or null. -/
inductive PropValue where
  | str (s : String)
  | num (q : ℚ)
  | strList (l : List String)
  | numList (l : List ℚ)
  | null
deriving DecidableEq, Repr

/-- A flat record: a keyed list of primitive property values. -/
def Record := List (String × PropValue)

/-- Key lookup in a flat record. -/
def rlookup (k : String) : Record → Option PropValue
  | [] => none
  | (k', v) :: rest => if k = k' then some v else rlookup k rest

def claimTypeToString : ClaimType → String
  | .AXIOM => "AXIOM"
  | .LAW => "LAW"
  | .DERIVED => "DERIVED"
  | .EMPIRICAL => "EMPIRICAL"
  | .GAP => "GAP"

def claimTypeOfString : String → Option ClaimType
  | "AXIOM" => some .AXIOM
  | "LAW" => some .LAW
  | "DERIVED" => some .DERIVED
  | "EMPIRICAL" => some .EMPIRICAL
  | "GAP" => some .GAP
  | _ => none

def reasoningTypeToString : ReasoningType → String
  | .MATHEMATICAL_DERIVATION => "MATHEMATICAL_DERIVATION"
  | .EXPERIMENTAL_SUPPORT => "EXPERIMENTAL_SUPPORT"
  | .LOGICAL_INFERENCE => "LOGICAL_INFERENCE"

def reasoningTypeOfString : String → Option ReasoningType
  | "MATHEMATICAL_DERIVATION" => some .MATHEMATICAL_DERIVATION
  | "EXPERIMENTAL_SUPPORT" => some .EXPERIMENTAL_SUPPORT
  | "LOGICAL_INFERENCE" => some .LOGICAL_INFERENCE
  | _ => none

def asStr : Option PropValue → Option String
  | some (PropValue.str s) => some s
  | _ => none

def asNum : Option PropValue → Option ℚ
  | some (PropValue.num q) => some q
  | _ => none

def asStrList : Option PropValue → Option (List String)
  | some (PropValue.strList l) => some l
  | _ => none

def asNumList : Option PropValue → Option (List ℚ)
  | some (PropValue.numList l) => some l
  | _ => none

/-- An optional string serializes as null when absent. -/
def asOptStr : Option PropValue → Option (Option String)
  | some (PropValue.str s) => some (some s)
  | some PropValue.null => some none
  | _ => none

def optStrVal : Option String → PropValue
  | some s => PropValue.str s
  | none => PropValue.null

def Source.toRecord (s : Source) : Record :=
  [("type", .str s.type), ("reference", .str s.reference),
   ("credibility", .num s.credibility), ("last_checked", .str s.last_checked)]

def Source.fromRecord (r : Record) : Option Source := do
  let ty ← asStr (rlookup "type" r)
  let ref ← asStr (rlookup "reference" r)
  let cred ← asNum (rlookup "credibility" r)
  let chk ← asStr (rlookup "last_checked" r)
  pure ⟨ty, ref, cred, chk⟩

/-- Rebuild the Source list from the four parallel primitive lists; fails
when the lists do not line up. -/
def zipSources : List String → List String → List ℚ → List String →
    Option (List Source)
  | [], [], [], [] => some []
  | ty :: tys, ref :: refs, cred :: creds, chk :: chks => do
      let rest ← zipSources tys refs creds chks
      pure (⟨ty, ref, cred, chk⟩ :: rest)
  | _, _, _, _ => none

def Claim.toRecord (c : Claim) : Record :=
  [("id", .str c.id),
   ("statement", .str c.statement),
   ("type", .str (claimTypeToString c.type)),
   ("domain", .str c.domain),
   ("confidence", .num c.confidence),
   ("source_types", .strList (c.sources.map Source.type)),
   ("source_references", .strList (c.sources.map Source.reference)),
   ("source_credibilities", .numList (c.sources.map Source.credibility)),
   ("source_last_checked", .strList (c.sources.map Source.last_checked)),
   ("math_expression", optStrVal c.math_expression)]

def Claim.fromRecord (r : Record) : Option Claim := do
  let i ← asStr (rlookup "id" r)
  let st ← asStr (rlookup "statement" r)
  let tys ← asStr (rlookup "type" r)
  let ty ← claimTypeOfString tys
  let dom ← asStr (rlookup "domain" r)
  let conf ← asNum (rlookup "confidence" r)
  let stys ← asStrList (rlookup "source_types" r)
  let srefs ← asStrList (rlookup "source_references" r)
  let screds ← asNumList (rlookup "source_credibilities" r)
  let schks ← asStrList (rlookup "source_last_checked" r)
  let srcs ← zipSources stys srefs screds schks
  let me ← asOptStr (rlookup "math_expression" r)
  pure ⟨i, st, ty, dom, conf, srcs, me⟩

def Edge.toRecord (e : Edge) : Record :=
  [("id", .str e.id),
   ("from_claim_id", .str e.from_claim_id),
   ("to_claim_id", .str e.to_claim_id),
   ("reasoning_type", .str (reasoningTypeToString e.reasoning_type)),
   ("explanation", .str e.explanation),
   ("strength", .num e.strength)]

def Edge.fromRecord (r : Record) : Option Edge := do
  let i ← asStr (rlookup "id" r)
  let f ← asStr (rlookup "from_claim_id" r)
  let t ← asStr (rlookup "to_claim_id" r)
  let rts ← asStr (rlookup "reasoning_type" r)
  let rt ← reasoningTypeOfString rts
  let ex ← asStr (rlookup "explanation" r)
  let strg ← asNum (rlookup "strength" r)
  pure ⟨i, f, t, rt, ex, strg⟩

def Gap.toRecord (g : Gap) : Record :=
  [("id", .str g.id),
   ("question", .str g.question),
   ("blocked_claim_ids", .strList g.blocked_claim_ids),
   ("current_research", .str g.current_research),
   ("importance", .num g.importance)]

def Gap.fromRecord (r : Record) : Option Gap := do
  let i ← asStr (rlookup "id" r)
  let q ← asStr (rlookup "question" r)
  let bl ← asStrList (rlookup "blocked_claim_ids" r)
  let cr ← asStr (rlookup "current_research" r)
  let imp ← asNum (rlookup "importance" r)
  pure ⟨i, q, bl, cr, imp⟩

/-! ## Entity Operations over the graph store

Modelled from the spec: the typed access layer (`src/core/graph_db.py`,
described in the repository's progress documentation but not among the
available sources) over a single logical graph store. The store state is
embedded explicitly: the node/relationship sets owned by the store. -/

/-- The backing graph store's state: its Claim nodes, Edge relationships and
Gap nodes. -/
structure Store where
  claims : List Claim
  edges : List Edge
  gaps : List Gap
deriving DecidableEq, Repr

/-- Upsert by identifier: replace every stored claim bearing this id (MERGE
semantics: create-or-replace, never duplication). -/
def upsertClaim (l : List Claim) (c : Claim) : List Claim :=
  c :: l.filter (fun x => x.id ≠ c.id)

/-- Modelled from the spec: `createClaim(claim) -> id` — upsert by
identifier, attaches/replaces associated Sources (carried inside the Claim),
returns the identifier. -/
def createClaim (s : Store) (c : Claim) : Store × String :=
  ({ s with claims := upsertClaim s.claims c }, c.id)

/-- Modelled from the spec: `getClaim(id) -> Claim | absent` — fetch
including attached Sources; an unknown id yields `none`, a normal non-error
outcome (the return type is `Option`, not `Except`). -/
def getClaim (s : Store) (id : String) : Option Claim :=
  s.claims.find? (fun c => c.id = id)

/-- Does a claim with this id exist in the store? -/
def hasClaim (s : Store) (id : String) : Bool :=
  s.claims.any (fun c => c.id = id)

/-- Modelled from the spec: a `ReferentialError` names the missing
endpoint. -/
inductive ReferentialError where
  | missing (endpoint : String)
deriving DecidableEq, Repr

/-- Modelled from the spec: `createEdge(edge) -> id` — validates that both
endpoint claim ids exist before creating the relationship (the store may not
natively enforce referential integrity), failing with a `ReferentialError`
naming the missing endpoint and leaving the store unchanged; on success,
upsert by identifier. -/
def createEdge (s : Store) (e : Edge) : Store × Except ReferentialError String :=
  if ¬ hasClaim s e.from_claim_id then
    (s, .error (.missing e.from_claim_id))
  else if ¬ hasClaim s e.to_claim_id then
    (s, .error (.missing e.to_claim_id))
  else
    ({ s with edges := e :: s.edges.filter (fun x => x.id ≠ e.id) }, .ok e.id)

/-- Modelled from the spec: `getSupportingClaims(claimId)` — follows incoming
reasoning Edges one hop: the claims with an Edge pointing into the given
claim, excluding the claim itself; no transitive recursion. -/
def getSupportingClaims (s : Store) (claimId : String) : List Claim :=
  s.claims.filter (fun c =>
    c.id ≠ claimId &&
    s.edges.any (fun e => e.from_claim_id = c.id && e.to_claim_id = claimId))

/-- Lowercase an ASCII letter. -/
def lowerChar (c : Char) : Char :=
  if 'A' ≤ c ∧ c ≤ 'Z' then Char.ofNat (c.toNat + 32) else c

/-- Does `pat` occur at the head of `l`? -/
def prefixOfChars : List Char → List Char → Bool
  | [], _ => true
  | _ :: _, [] => false
  | a :: as, b :: bs => a = b && prefixOfChars as bs

/-- Does `pat` occur anywhere inside `l`? -/
def infixOfChars : List Char → List Char → Bool
  | pat, [] => prefixOfChars pat []
  | pat, b :: rest => prefixOfChars pat (b :: rest) || infixOfChars pat rest

/-- Case-insensitive substring match (`toLowerCase` + `includes`). -/
def containsCI (hay pat : String) : Bool :=
  infixOfChars (pat.toList.map lowerChar) (hay.toList.map lowerChar)

/-- Does a claim's statement text match the text pattern (case-insensitive
substring)? -/
def claimMatches (pat : String) (c : Claim) : Bool :=
  containsCI c.statement pat

/-- The deterministic result order of `queryClaims`: confidence descending,
ties broken by id ascending. -/
def claimOrder (a b : Claim) : Prop :=
  b.confidence < a.confidence ∨ (a.confidence = b.confidence ∧ a.id ≤ b.id)

instance : DecidableRel claimOrder := fun a b => by
  unfold claimOrder; infer_instance

instance : IsTotal Claim claimOrder where
  total a b := by
    rcases lt_trichotomy a.confidence b.confidence with h | h | h
    · exact Or.inr (Or.inl h)
    · rcases le_total a.id b.id with h' | h'
      · exact Or.inl (Or.inr ⟨h, h'⟩)
      · exact Or.inr (Or.inr ⟨h.symm, h'⟩)
    · exact Or.inl (Or.inl h)

instance : IsTrans Claim claimOrder where
  trans a b c hab hbc := by
    rcases hab with hab | ⟨hab, hab'⟩ <;> rcases hbc with hbc | ⟨hbc, hbc'⟩
    · exact Or.inl (lt_trans hbc hab)
    · exact Or.inl (hbc ▸ hab)
    · exact Or.inl (hab ▸ hbc)
    · exact Or.inr ⟨hab.trans hbc, le_trans hab' hbc'⟩

/-- Modelled from the spec: `queryClaims(textPattern, limit)` —
case-insensitive substring match over statement text, capped at `limit`,
ordered deterministically by confidence descending then id ascending. -/
def queryClaims (s : Store) (pat : String) (limit : Nat) : List Claim :=
  (List.insertionSort claimOrder (s.claims.filter (claimMatches pat))).take limit

/-- Upsert a gap by identifier. -/
def upsertGap (l : List Gap) (g : Gap) : List Gap :=
  g :: l.filter (fun x => x.id ≠ g.id)

/-- Modelled from the spec: `createGap(gap) -> id` — upsert by identifier. -/
def createGap (s : Store) (g : Gap) : Store × String :=
  ({ s with gaps := upsertGap s.gaps g }, g.id)

/-- Modelled from the spec: `getGap(id) -> Gap | absent`. -/
def getGap (s : Store) (id : String) : Option Gap :=
  s.gaps.find? (fun g => g.id = id)

/-- The deterministic result order of `queryGaps`: importance descending,
ties broken by id ascending. -/
def gapOrder (a b : Gap) : Prop :=
  b.importance < a.importance ∨ (a.importance = b.importance ∧ a.id ≤ b.id)

instance : DecidableRel gapOrder := fun a b => by
  unfold gapOrder; infer_instance

instance : IsTotal Gap gapOrder where
  total a b := by
    rcases lt_trichotomy a.importance b.importance with h | h | h
    · exact Or.inr (Or.inl h)
    · rcases le_total a.id b.id with h' | h'
      · exact Or.inl (Or.inr ⟨h, h'⟩)
      · exact Or.inr (Or.inr ⟨h.symm, h'⟩)
    · exact Or.inl (Or.inl h)

instance : IsTrans Gap gapOrder where
  trans a b c hab hbc := by
    rcases hab with hab | ⟨hab, hab'⟩ <;> rcases hbc with hbc | ⟨hbc, hbc'⟩
    · exact Or.inl (lt_trans hbc hab)
    · exact Or.inl (hbc ▸ hab)
    · exact Or.inl (hab ▸ hbc)
    · exact Or.inr ⟨hab.trans hbc, le_trans hab' hbc'⟩

/-- Modelled from the spec: `queryGaps(minImportance)` — the gaps whose
importance is at least the threshold, ordered by importance descending with
ties broken by id. -/
def queryGaps (s : Store) (minImportance : ℚ) : List Gap :=
  List.insertionSort gapOrder (s.gaps.filter (fun g => minImportance ≤ g.importance))

/-! ## Backend startup configuration (`src/backend/start.sh`)

`start.sh` resolves the store connection settings from the process
environment before launching the API, under `set -euo pipefail`. -/

/-- A process environment: variable name to optional value. -/
def Env := String → Option String

/-- Shell `"${NAME:-default}"`: the default stands in when the variable is
unset or set to the empty string. -/
def envDefault (env : Env) (name dflt : String) : String :=
  match env name with
  | none => dflt
  | some v => if v = "" then dflt else v

/-- The settings `backend/start.sh` exports before launching the API. -/
structure BackendEnv where
  pythonpath : String
  neo4j_uri : String
  neo4j_user : String
  neo4j_password : String
  jwt_secret : String
  log_level : String
deriving DecidableEq, Repr

/-- `backend/start.sh` lines 21–26: `$PYTHONPATH` is referenced without a
default, so under `set -u` an unset PYTHONPATH aborts the script (`unbound
variable`), modelled as `none`; every other exported setting — the store
credential NEO4J_PASSWORD included — falls back to a default via
`"${VAR:-default}"`, so the script never aborts for their absence. -/
def resolveStartEnv (env : Env) (projectRoot : String) : Option BackendEnv :=
  match env "PYTHONPATH" with
  | none => none
  | some pp => some
      { pythonpath := projectRoot ++ ":" ++ pp
        neo4j_uri := envDefault env "NEO4J_URI" "bolt://localhost:7687"
        neo4j_user := envDefault env "NEO4J_USER" "neo4j"
        neo4j_password := envDefault env "NEO4J_PASSWORD" "claudipedia"
        jwt_secret := envDefault env "JWT_SECRET" "development-secret-key-change-in-production"
        log_level := envDefault env "LOG_LEVEL" "INFO" }

/-- An environment in which the store credential is absent (PYTHONPATH is
set, so the `set -u` reference on line 22 of `start.sh` does not abort). -/
def envMissingCredential : Env := fun n =>
  if n = "PYTHONPATH" then some "/usr/lib/python3" else none

/-! ## The article-search web route (`src/unnamed/part_004`, a Next.js
`GET` handler)

The route filters a fixed mock article list by a case-insensitive substring
match over title or summary and truncates with
`slice(0, parseInt(searchParams.get('limit') || '10'))`. -/

/-- An entry of `mockSearchResults`. -/
structure Article where
  id : String
  title : String
  summary : String
  domain : String
  confidence : ℚ
  lastModified : String
deriving DecidableEq, Repr

/-- The route's `mockSearchResults` array, in its source order. -/
def mockSearchResults : List Article :=
  [⟨"classical-mechanics", "Classical Mechanics",
    "The branch of physics concerned with the motion of macroscopic objects under the influence of forces.",
    "Physics", 95/100, "2024-01-15"⟩,
   ⟨"quantum-mechanics", "Quantum Mechanics",
    "A fundamental theory in physics that describes the physical properties of nature at the scale of atoms.",
    "Physics", 90/100, "2024-01-14"⟩,
   ⟨"theory-of-relativity", "Theory of Relativity",
    "Einstein's theory describing the relationship between space and time, and how gravity affects spacetime.",
    "Physics", 98/100, "2024-01-13"⟩]

/-- The whitespace JavaScript's `parseInt` skips (the forms that occur
here). -/
def isJsSpace (c : Char) : Bool :=
  c = ' ' || c = '\t' || c = '\n' || c = '\r'

/-- Accumulate the leading decimal digits, stopping at the first
non-digit. -/
def decDigits (acc : Nat) : List Char → Nat
  | [] => acc
  | c :: cs => if c.isDigit then decDigits (10 * acc + (c.toNat - 48)) cs else acc

def isHexDigitChar (c : Char) : Bool :=
  c.isDigit || ('a' ≤ c && c ≤ 'f') || ('A' ≤ c && c ≤ 'F')

def hexDigits (acc : Nat) : List Char → Nat
  | [] => acc
  | c :: cs =>
    if c.isDigit then hexDigits (16 * acc + (c.toNat - 48)) cs
    else if 'a' ≤ c && c ≤ 'f' then hexDigits (16 * acc + (c.toNat - 87)) cs
    else if 'A' ≤ c && c ≤ 'F' then hexDigits (16 * acc + (c.toNat - 55)) cs
    else acc

/-- The unsigned part of JavaScript `parseInt`: a `0x`/`0X` prefix switches
to hexadecimal; no leading digit yields NaN (`none`). -/
def parseUnsigned : List Char → Option Nat
  | [] => none
  | '0' :: x :: rest =>
    if x = 'x' || x = 'X' then
      match rest with
      | c :: _ => if isHexDigitChar c then some (hexDigits 0 rest) else none
      | [] => none
    else some (decDigits 0 ('0' :: x :: rest))
  | c :: cs => if c.isDigit then some (decDigits 0 (c :: cs)) else none

/-- JavaScript `parseInt(s)` with no radix argument: skip whitespace, an
optional sign, then the longest digit prefix; `none` models NaN. -/
def jsParseInt (s : String) : Option Int :=
  match s.toList.dropWhile isJsSpace with
  | '-' :: rest => (parseUnsigned rest).map (fun n => -(n : Int))
  | '+' :: rest => (parseUnsigned rest).map (fun n => (n : Int))
  | rest => (parseUnsigned rest).map (fun n => (n : Int))

/-- JavaScript `l.slice(0, e)` where `e` came from `parseInt`: NaN converts
to 0 (an empty slice), a negative end counts from the end of the list. -/
def jsSlice0 {α : Type} (l : List α) (e : Option Int) : List α :=
  match e with
  | none => l.take 0
  | some e => if e < 0 then l.take (((l.length : Int) + e).toNat) else l.take e.toNat

/-- JavaScript `s.trim()`: drop leading and trailing whitespace. -/
def trimChars (l : List Char) : List Char :=
  ((l.dropWhile isJsSpace).reverse.dropWhile isJsSpace).reverse

/-- The route's `GET` handler (`src/unnamed/part_004` lines 31–49):
`q` and `limit` are the query parameters (`none` = absent, `some ""` =
present with an empty value). `searchParams.get('limit') || '10'` replaces
both an absent and an empty-string limit by `'10'` ('' is falsy); a blank
query returns no results before any matching. -/
def searchGET (q : Option String) (limitParam : Option String) : List Article :=
  let limitStr := match limitParam with
    | none => "10"
    | some s => if s = "" then "10" else s
  let lim := jsParseInt limitStr
  match q with
  | none => []
  | some qs =>
    if qs = "" || (trimChars qs.toList).length = 0 then []
    else jsSlice0 (mockSearchResults.filter (fun a =>
      containsCI a.title qs || containsCI a.summary qs)) lim

/-! ## Concrete fixtures used by witnesses and counterexamples -/

/-- A first claim under id `"c1"`. -/
def exampleClaimV1 : Claim :=
  ⟨"c1", "Objects in motion stay in motion", .LAW, "classical-mechanics", 95/100, [], none⟩

/-- A second, different claim under the same id `"c1"`. -/
def exampleClaimV2 : Claim :=
  ⟨"c1", "An object in motion stays in motion unless acted upon", .LAW,
   "classical-mechanics", 97/100, [], none⟩

/-- The empty store. -/
def emptyStore : Store := ⟨[], [], []⟩

/-- A store holding one claim, `"newton-1"`. -/
def storeNewton : Store :=
  ⟨[⟨"newton-1", "Newton's first law", .LAW, "classical-mechanics", 95/100, [], none⟩], [], []⟩

/-- An edge into `"newton-1"` from a nonexistent claim `"inertia-obs"`. -/
def edgeDangling : Edge :=
  ⟨"e1", "inertia-obs", "newton-1", .EXPERIMENTAL_SUPPORT, "observed inertia", 9/10⟩

/-- A store for the query witnesses: two matching claims and one that does
not match, plus two gaps. -/
def storeQueries : Store :=
  ⟨[⟨"a1", "Energy is conserved", .LAW, "physics", 9/10, [], none⟩,
    ⟨"a2", "energy flows downhill", .EMPIRICAL, "physics", 95/100, [], none⟩,
    ⟨"a3", "Entropy increases", .LAW, "physics", 99/100, [], none⟩],
   [⟨"e1", "a2", "a1", .EXPERIMENTAL_SUPPORT, "support", 8/10⟩],
   [⟨"g1", "What is dark matter?", ["a1"], "open", 7⟩,
    ⟨"g2", "Why is gravity weak?", [], "open", 5⟩,
    ⟨"g3", "minor question", [], "open", 2⟩]⟩

/-! ## Theorems -/

theorem claimTypeOfString_toString (t : ClaimType) :
    claimTypeOfString (claimTypeToString t) = some t := by
  cases t <;> rfl

theorem reasoningTypeOfString_toString (t : ReasoningType) :
    reasoningTypeOfString (reasoningTypeToString t) = some t := by
  cases t <;> rfl

theorem zipSources_flatten (l : List Source) :
    zipSources (l.map Source.type) (l.map Source.reference)
      (l.map Source.credibility) (l.map Source.last_checked) = some l := by
  induction l with
  | nil => rfl
  | cons s rest ih => simp [zipSources, ih]

theorem claim_fromRecord_toRecord (c : Claim) :
    Claim.fromRecord (Claim.toRecord c) = some c := by
  obtain ⟨i, st, ty, dom, conf, srcs, me⟩ := c
  simp only [Claim.toRecord, Claim.fromRecord, rlookup]
  simp only [reduceIte, String.reduceEq]
  simp [asStr, asNum, asStrList, asNumList, claimTypeOfString_toString,
    zipSources_flatten, Option.bind]
  cases me <;> simp [optStrVal, asOptStr]

theorem edge_fromRecord_toRecord (e : Edge) :
    Edge.fromRecord (Edge.toRecord e) = some e := by
  obtain ⟨i, f, t, rt, ex, strg⟩ := e
  simp only [Edge.toRecord, Edge.fromRecord, rlookup]
  simp only [reduceIte, String.reduceEq]
  simp [asStr, asNum, reasoningTypeOfString_toString, Option.bind]

theorem gap_fromRecord_toRecord (g : Gap) :
    Gap.fromRecord (Gap.toRecord g) = some g := by
  obtain ⟨i, q, bl, cr, imp⟩ := g
  simp only [Gap.toRecord, Gap.fromRecord, rlookup]
  simp only [reduceIte, String.reduceEq]
  simp [asStr, asNum, asStrList, Option.bind]

theorem source_fromRecord_toRecord (s : Source) :
    Source.fromRecord (Source.toRecord s) = some s := by
  obtain ⟨ty, ref, cred, chk⟩ := s
  simp only [Source.toRecord, Source.fromRecord, rlookup]
  simp only [reduceIte, String.reduceEq]
  simp [asStr, asNum, Option.bind]


/-- C1: for every valid entity x (Claim, Edge, Gap, Source), deserialization
inverts serialization — `fromRecord (toRecord x) = some x` — so the
flat-record serialization is lossless and round-trips. -/
theorem C1_serialization_roundtrip :
    (∀ c : Claim, Claim.fromRecord (Claim.toRecord c) = some c) ∧
    (∀ e : Edge, Edge.fromRecord (Edge.toRecord e) = some e) ∧
    (∀ g : Gap, Gap.fromRecord (Gap.toRecord g) = some g) ∧
    (∀ s : Source, Source.fromRecord (Source.toRecord s) = some s) :=
  ⟨claim_fromRecord_toRecord, edge_fromRecord_toRecord,
   gap_fromRecord_toRecord, source_fromRecord_toRecord⟩

/-- C2: constructing a Claim whose confidence lies outside [0,1], or an
AXIOM-typed Claim whose confidence is not 1, fails with a `ValidationError`
naming the offending field (`confidence`) and the allowed range, and
likewise an Edge whose strength lies outside [0,1] (field `strength`);
construction never succeeds with such values — `mkClaim`/`mkEdge` are pure
functions of the field values, checked before any store interaction. -/
theorem C2_construction_validation :
    (∀ i st ty dom conf srcs me, conf < 0 ∨ 1 < conf →
      mkClaim i st ty dom conf srcs me = .error ⟨"confidence", 0, 1⟩) ∧
    (∀ i st dom conf srcs me, 0 ≤ conf → conf ≤ 1 → conf ≠ 1 →
      mkClaim i st ClaimType.AXIOM dom conf srcs me = .error ⟨"confidence", 1, 1⟩) ∧
    (∀ i st ty dom conf srcs me c, mkClaim i st ty dom conf srcs me = .ok c →
      0 ≤ c.confidence ∧ c.confidence ≤ 1 ∧
        (c.type = ClaimType.AXIOM → c.confidence = 1)) ∧
    (∀ i f t rt ex strg, strg < 0 ∨ 1 < strg →
      mkEdge i f t rt ex strg = .error ⟨"strength", 0, 1⟩) ∧
    (∀ i f t rt ex strg e, mkEdge i f t rt ex strg = .ok e →
      0 ≤ e.strength ∧ e.strength ≤ 1) := by
  refine ⟨?_, ?_, ?_, ?_, ?_⟩
  · intro i st ty dom conf srcs me h
    simp [mkClaim, h]
  · intro i st dom conf srcs me h0 h1 hne
    have : ¬ (conf < 0 ∨ 1 < conf) := by
      push_neg
      exact ⟨h0, h1⟩
    simp [mkClaim, this, hne]
  · intro i st ty dom conf srcs me c h
    unfold mkClaim at h
    split at h
    · exact absurd h (by simp)
    · split at h
      · exact absurd h (by simp)
      · rename_i hrange haxiom
        push_neg at hrange
        cases h
        refine ⟨hrange.1, hrange.2, ?_⟩
        intro hty
        by_contra hc
        exact haxiom ⟨hty, hc⟩
  · intro i f t rt ex strg h
    simp [mkEdge, h]
  · intro i f t rt ex strg e h
    unfold mkEdge at h
    split at h
    · exact absurd h (by simp)
    · rename_i hrange
      push_neg at hrange
      cases h
      exact hrange

/-- Witness for C2 at concrete inputs: confidence 3/2 is rejected with the
range [0,1], an AXIOM at confidence 4/5 is rejected with the range [1,1],
and a valid construction at confidence 4/5 succeeds in range. -/
theorem C2_construction_validation_witness :
    mkClaim "c" "s" ClaimType.LAW "d" (3/2) [] none = .error ⟨"confidence", 0, 1⟩ ∧
    mkClaim "c" "s" ClaimType.AXIOM "d" (4/5) [] none = .error ⟨"confidence", 1, 1⟩ ∧
    mkEdge "e" "a" "b" ReasoningType.LOGICAL_INFERENCE "x" 2 = .error ⟨"strength", 0, 1⟩ :=
  ⟨C2_construction_validation.1 "c" "s" ClaimType.LAW "d" (3/2) [] none
      (Or.inr (by norm_num)),
   C2_construction_validation.2.1 "c" "s" "d" (4/5) [] none
      (by norm_num) (by norm_num) (by norm_num),
   C2_construction_validation.2.2.2.1 "e" "a" "b" ReasoningType.LOGICAL_INFERENCE "x" 2
      (Or.inr (by norm_num))⟩

/-- Upserting leaves exactly one stored claim under the upserted id: the new
one. -/
theorem upsertClaim_filter_id (l : List Claim) (c : Claim) :
    (upsertClaim l c).filter (fun x => x.id = c.id) = [c] := by
  simp only [upsertClaim, List.filter_cons, List.filter_filter]
  simp

/-- C3: calling `createClaim` twice with the same identifier and different
contents leaves exactly one stored claim under that identifier, bearing the
data of the second call — upsert keyed by id, never duplication — and each
call returns the identifier. -/
theorem C3_createClaim_upsert (s : Store) (c₁ c₂ : Claim) (h : c₁.id = c₂.id) :
    (createClaim (createClaim s c₁).1 c₂).1.claims.filter
        (fun x => x.id = c₁.id) = [c₂] ∧
    (createClaim s c₁).2 = c₁.id ∧
    (createClaim (createClaim s c₁).1 c₂).2 = c₂.id := by
  refine ⟨?_, rfl, rfl⟩
  rw [h]
  exact upsertClaim_filter_id _ c₂

/-- Witness for C3: creating `"c1"` twice with different statements in the
empty store leaves exactly the second claim stored under `"c1"`. -/
theorem C3_createClaim_upsert_witness :
    (createClaim (createClaim emptyStore exampleClaimV1).1 exampleClaimV2).1.claims.filter
        (fun x => x.id = exampleClaimV1.id) = [exampleClaimV2] ∧
    (createClaim emptyStore exampleClaimV1).2 = exampleClaimV1.id ∧
    (createClaim (createClaim emptyStore exampleClaimV1).1 exampleClaimV2).2
        = exampleClaimV2.id :=
  C3_createClaim_upsert emptyStore exampleClaimV1 exampleClaimV2 rfl

/-- C4: `createEdge` validates both endpoints. A missing source or target
endpoint yields a `ReferentialError` naming that endpoint with the store
unchanged (no relationship is created); every error is one of those two
shapes, with the named endpoint indeed absent; success requires both
endpoint claims to exist and returns the edge's identifier. -/
theorem C4_createEdge_referential (s : Store) (e : Edge) :
    (hasClaim s e.from_claim_id = false →
      createEdge s e = (s, .error (.missing e.from_claim_id))) ∧
    (hasClaim s e.from_claim_id = true → hasClaim s e.to_claim_id = false →
      createEdge s e = (s, .error (.missing e.to_claim_id))) ∧
    (∀ err, (createEdge s e).2 = .error err →
      (createEdge s e).1 = s ∧
      ((err = .missing e.from_claim_id ∧ hasClaim s e.from_claim_id = false) ∨
       (err = .missing e.to_claim_id ∧ hasClaim s e.to_claim_id = false))) ∧
    (∀ r, (createEdge s e).2 = .ok r →
      hasClaim s e.from_claim_id = true ∧ hasClaim s e.to_claim_id = true ∧
        r = e.id) := by
  by_cases hf : hasClaim s e.from_claim_id
  · by_cases ht : hasClaim s e.to_claim_id
    · refine ⟨by simp [hf], by simp [ht], ?_, ?_⟩
      · intro err herr
        simp [createEdge, hf, ht] at herr
      · intro r hr
        simp [createEdge, hf, ht] at hr
        exact ⟨hf, ht, hr.symm⟩
    · refine ⟨by simp [hf], ?_, ?_, ?_⟩
      · intro _ _
        simp [createEdge, hf, ht]
      · intro err herr
        simp [createEdge, hf, ht] at herr
        simp [createEdge, hf, ht, herr]
      · intro r hr
        simp [createEdge, hf, ht] at hr
  · refine ⟨?_, ?_, ?_, ?_⟩
    · intro _
      simp [createEdge, hf]
    · intro hf' _
      simp [hf] at hf'
    · intro err herr
      simp [createEdge, hf] at herr
      simp [createEdge, hf, herr]
    · intro r hr
      simp [createEdge, hf] at hr

/-- Witness for C4: creating an edge whose source claim `"inertia-obs"` does
not exist in a store holding only `"newton-1"` fails with a
`ReferentialError` naming `"inertia-obs"` and leaves the store unchanged. -/
theorem C4_createEdge_referential_witness :
    createEdge storeNewton edgeDangling
      = (storeNewton, .error (.missing edgeDangling.from_claim_id)) :=
  (C4_createEdge_referential storeNewton edgeDangling).1 (by decide)

/-- C5: `queryClaims` returns only stored claims whose statement text
matches the pattern case-insensitively, at most `limit` of them, all of the
matches whenever at most `limit` claims match, in the deterministic order
confidence-descending-then-id-ascending; as a pure function of its inputs,
two calls with identical inputs return identical lists. -/
theorem C5_queryClaims_deterministic (s : Store) (pat : String) (limit : Nat) :
    (queryClaims s pat limit).length ≤ limit ∧
    (∀ c ∈ queryClaims s pat limit, c ∈ s.claims ∧ claimMatches pat c = true) ∧
    ((s.claims.filter (claimMatches pat)).length ≤ limit →
      ∀ c ∈ s.claims, claimMatches pat c = true → c ∈ queryClaims s pat limit) ∧
    (queryClaims s pat limit).Sorted claimOrder := by
  refine ⟨?_, ?_, ?_, ?_⟩
  · simp [queryClaims]
  · intro c hc
    have hc' := List.mem_of_mem_take hc
    rw [List.mem_insertionSort] at hc'
    exact ⟨(List.mem_filter.mp hc').1, (List.mem_filter.mp hc').2⟩
  · intro hlen c hcs hcm
    unfold queryClaims
    rw [List.take_of_length_le (by rwa [List.length_insertionSort])]
    rw [List.mem_insertionSort]
    exact List.mem_filter.mpr ⟨hcs, hcm⟩
  · exact List.Pairwise.sublist (List.take_sublist _ _)
      (List.sorted_insertionSort claimOrder _)

/-- Witness for C5 on a concrete store: the pattern `"energy"` matches the
two energy claims case-insensitively and they come back ordered by
confidence descending. -/
theorem C5_queryClaims_deterministic_witness :
    (queryClaims storeQueries "energy" 10).length ≤ 10 ∧
    (∀ c ∈ queryClaims storeQueries "energy" 10,
      c ∈ storeQueries.claims ∧ claimMatches "energy" c = true) ∧
    ((storeQueries.claims.filter (claimMatches "energy")).length ≤ 10 →
      ∀ c ∈ storeQueries.claims, claimMatches "energy" c = true →
        c ∈ queryClaims storeQueries "energy" 10) ∧
    (queryClaims storeQueries "energy" 10).Sorted claimOrder :=
  C5_queryClaims_deterministic storeQueries "energy" 10

/-- C6: `getSupportingClaims` returns exactly the claims with a reasoning
Edge pointing into the given claim — one hop, the claim itself excluded; a
claim is in the result iff it is stored and a direct incoming edge exists,
so claims reachable only through two or more hops are excluded and no
transitive recursion happens. -/
theorem C6_getSupportingClaims_one_hop (s : Store) (claimId : String) (c : Claim) :
    c ∈ getSupportingClaims s claimId ↔
      c ∈ s.claims ∧ c.id ≠ claimId ∧
        ∃ e ∈ s.edges, e.from_claim_id = c.id ∧ e.to_claim_id = claimId := by
  simp [getSupportingClaims, List.mem_filter, List.any_eq_true]

/-- Witness for C6 on a concrete store: the claim `"a2"` is in the
supporting claims of `"a1"`, through its one direct edge into it. -/
theorem C6_getSupportingClaims_one_hop_witness :
    (⟨"a2", "energy flows downhill", .EMPIRICAL, "physics", 95/100, [], none⟩ : Claim)
      ∈ getSupportingClaims storeQueries "a1" :=
  (C6_getSupportingClaims_one_hop storeQueries "a1" _).mpr
    ⟨List.mem_cons_of_mem _ (List.mem_cons_self _ _), by decide,
     ⟨"e1", "a2", "a1", .EXPERIMENTAL_SUPPORT, "support", 8/10⟩,
     List.mem_cons_self _ _, rfl, rfl⟩

/-- C7: `getClaim` yields `none` — a normal non-error outcome, the return
type is `Option`, not an error type — exactly when no stored claim bears the
id; on a present id it returns that stored Claim in full, its attached
Sources included. -/
theorem C7_getClaim_absent_non_error (s : Store) (id : String) :
    (getClaim s id = none ↔ ∀ c ∈ s.claims, c.id ≠ id) ∧
    (∀ c, getClaim s id = some c → c ∈ s.claims ∧ c.id = id) := by
  constructor
  · simp [getClaim, List.find?_eq_none]
  · intro c hc
    exact ⟨List.mem_of_find?_eq_some hc, by simpa using List.find?_some hc⟩

/-- Witness for C7: the unknown id `"nope"` yields `none` in a concrete
store. -/
theorem C7_getClaim_absent_non_error_witness :
    getClaim storeQueries "nope" = none :=
  (C7_getClaim_absent_non_error storeQueries "nope").1.mpr (by decide)

/-- C8: `queryGaps` returns exactly the gaps whose importance is at least
the threshold, ordered by importance descending with ties broken
deterministically by id ascending. -/
theorem C8_queryGaps_threshold_order (s : Store) (m : ℚ) :
    (∀ g, g ∈ queryGaps s m ↔ g ∈ s.gaps ∧ m ≤ g.importance) ∧
    (queryGaps s m).Sorted gapOrder := by
  constructor
  · intro g
    rw [queryGaps, List.mem_insertionSort, List.mem_filter]
    simp
  · exact List.sorted_insertionSort gapOrder _

/-- Witness for C8 at threshold 5 on a concrete store: membership holds
exactly for the gaps of importance ≥ 5 and the result is sorted. -/
theorem C8_queryGaps_threshold_order_witness :
    (∀ g, g ∈ queryGaps storeQueries 5 ↔ g ∈ storeQueries.gaps ∧ 5 ≤ g.importance) ∧
    (queryGaps storeQueries 5).Sorted gapOrder :=
  C8_queryGaps_threshold_order storeQueries 5

/-- Counterexample to C9: with an environment in which the store credential
NEO4J_PASSWORD is absent, startup configuration resolution does not fail —
`start.sh` substitutes the default `"claudipedia"` and proceeds, so the
claimed startup-time fatal error on an absent credential never happens. -/
theorem C9_counterexample_credential_defaulted :
    envMissingCredential "NEO4J_PASSWORD" = none ∧
    resolveStartEnv envMissingCredential "/home/claudipedia" ≠ none ∧
    (resolveStartEnv envMissingCredential "/home/claudipedia").map
        BackendEnv.neo4j_password = some "claudipedia" :=
  ⟨rfl, by simp [resolveStartEnv, envMissingCredential], rfl⟩

/-- C9 amended: every store setting `start.sh` exports, the credential
included, has a default (`NEO4J_PASSWORD` falls back to `"claudipedia"`), so
an absent credential never aborts startup — resolution succeeds whenever
PYTHONPATH is set and its credential is the environment's value or that
default; only a variable referenced without a default under `set -u`
(PYTHONPATH, line 22) aborts the script at startup when absent. -/
theorem C9_startup_defaults (env : Env) (root : String) :
    (env "PYTHONPATH" = none → resolveStartEnv env root = none) ∧
    (∀ cfg, resolveStartEnv env root = some cfg →
      cfg.neo4j_password = envDefault env "NEO4J_PASSWORD" "claudipedia") ∧
    (env "NEO4J_PASSWORD" = none → ∀ cfg, resolveStartEnv env root = some cfg →
      cfg.neo4j_password = "claudipedia") ∧
    (∀ pp, env "PYTHONPATH" = some pp → resolveStartEnv env root ≠ none) := by
  refine ⟨?_, ?_, ?_, ?_⟩
  · intro h
    simp [resolveStartEnv, h]
  · intro cfg hcfg
    unfold resolveStartEnv at hcfg
    split at hcfg
    · exact absurd hcfg (by simp)
    · cases hcfg
      rfl
  · intro habs cfg hcfg
    unfold resolveStartEnv at hcfg
    split at hcfg
    · exact absurd hcfg (by simp)
    · cases hcfg
      simp [envDefault, habs]
  · intro pp hpp
    simp [resolveStartEnv, hpp]

/-- Witness for the amended C9: in the concrete credential-less environment,
resolution succeeds and the credential is the default `"claudipedia"`. -/
theorem C9_startup_defaults_witness :
    envMissingCredential "NEO4J_PASSWORD" = none ∧
    ∀ cfg, resolveStartEnv envMissingCredential "/app" = some cfg →
      cfg.neo4j_password = "claudipedia" :=
  ⟨rfl, (C9_startup_defaults envMissingCredential "/app").2.2.1 rfl⟩

/-- Counterexample to C10: the request `GET /api/search?q=physics&limit=`
has the `limit` parameter present with the empty-string value, which does
not parse as an integer (`parseInt('')` is NaN) — yet the endpoint returns
the two matching articles, because `'' || '10'` replaces the empty string by
the default before `parseInt` ever runs. -/
theorem C10_counterexample_empty_limit :
    jsParseInt "" = none ∧
    (searchGET (some "physics") (some "")).map Article.id
      = ["classical-mechanics", "quantum-mechanics"] :=
  ⟨rfl, by decide⟩

/-- C10 amended: for every GET request to the article-search route whose
`limit` query parameter is present with a non-empty value that does not
parse as an integer (`parseInt` yields NaN, and `slice(0, NaN)` truncates to
zero elements), the endpoint returns an empty results list even when
articles match the query, rather than falling back to the default limit of
10 or reporting an error; an empty-string value instead falls back to the
default because `''` is falsy in `searchParams.get('limit') || '10'`. -/
theorem C10_nan_limit_empties_results (qs ls : String)
    (hne : ls ≠ "") (hnan : jsParseInt ls = none) :
    searchGET (some qs) (some ls) = [] := by
  unfold searchGET
  simp only [hne, if_false, hnan]
  split
  · rfl
  · simp [jsSlice0]

/-- Witness for the amended C10: `limit=abc` does not parse, and the query
`physics` — which matches two articles — returns no results. -/
theorem C10_nan_limit_empties_results_witness :
    ("abc" : String) ≠ "" ∧ jsParseInt "abc" = none ∧
    searchGET (some "physics") (some "abc") = [] :=
  ⟨by decide, rfl, C10_nan_limit_empties_results "physics" "abc" (by decide) rfl⟩
